import Mathlib

/-!
# Verification of the meme-token launch service (src/src/index.ts)

Shallow embedding of the single-route HTTP service.  The program is a
straight-line orchestration of four network steps; every external call is
modelled by an `Env` record that fixes the outcome each collaborator would
return for the one request under consideration.  Each embedded function
returns its result together with the list of network calls it issued, so
that short-circuit ("no call made") properties are statable.

JavaScript numbers appearing in the tuning parameters are modelled as `ℚ`:
the claims concern only which value is selected (the `||` fallback and the
schema bounds), never float rounding, and all constants involved are exact
decimal literals.
-/

/-- A value thrown in JavaScript: either an `Error` instance carrying a
message (and, for the RPC client's send errors, possibly simulation log
lines), or some non-`Error` value. -/
inductive Thrown where
  | error (message : String) (logs : Option (List String))
  | nonError
  deriving DecidableEq, Repr

/-- The message the catch block extracts: `error.message` for an `Error`
instance, the literal fallback otherwise (index.ts lines 139-141). -/
def thrownMessage : Thrown → String
  | .error m _ => m
  | .nonError => "Unknown error occurred"

/-- The log lines a thrown value carries, if any. -/
def thrownLogs : Thrown → Option (List String)
  | .error _ l => l
  | .nonError => none

/-- Outcome of a `fetch` call: the promise either rejects (network failure:
host unreachable, DNS error, ...) or resolves with an HTTP response.  Per
the fetch specification a non-success HTTP status does NOT reject; it
resolves with `ok = false`.  `body` is the (already parsed) payload the
response would yield. -/
inductive HttpOutcome (α : Type) where
  | reject (t : Thrown)
  | response (status : Nat) (statusText : String) (body : α)
  deriving DecidableEq, Repr

/-- `Response.ok` of the fetch API: status in the range 200-299. -/
def httpOk (status : Nat) : Bool := 200 ≤ status && status ≤ 299

/-- Echoed metadata object inside the IPFS upload response
(`metadataResponse.metadata`). -/
structure EchoedMetadata where
  name : String
  symbol : String
  deriving DecidableEq, Repr

/-- Parsed JSON returned by the pump.fun IPFS endpoint
(`uploadMetadata`'s return value). -/
structure MetadataResponse where
  metadataUri : String
  metadata : EchoedMetadata
  deriving DecidableEq, Repr

/-- Optional tuning block of the request (`TokenOptionsSchema`). -/
structure TokenOptions where
  initialLiquiditySOL : Option ℚ
  slippageBps : Option ℚ
  priorityFee : Option ℚ
  deriving DecidableEq, Repr

/-- The request body (`TokenLaunchRequestSchema`). -/
structure TokenLaunchRequest where
  tokenName : String
  tokenTicker : String
  description : String
  imageUrl : String
  privateKey : String
  rpcUrl : Option String
  options : Option TokenOptions
  deriving DecidableEq, Repr

/-- Success payload of the response (`TokenLaunchResponseSchema.data`). -/
structure TokenData where
  signature : String
  mintAddress : String
  metadataUri : String
  deriving DecidableEq, Repr

/-- The response body (`TokenLaunchResponseSchema`): a success flag, an
optional data payload and an optional error string — nothing else. -/
structure LaunchResult where
  success : Bool
  data : Option TokenData
  error : Option String
  deriving DecidableEq, Repr

/-- JSON body POSTed to the pumpportal trade-local endpoint
(`createTokenTransaction`, lines 199-213).  The nested `tokenMetadata`
object is flattened into the three `tokenMetadata*` fields. -/
structure TradeRequestBody where
  publicKey : String
  action : String
  tokenMetadataName : String
  tokenMetadataSymbol : String
  tokenMetadataUri : String
  mint : String
  denominatedInSol : String
  amount : ℚ
  slippage : ℚ
  priorityFee : ℚ
  pool : String
  deriving DecidableEq, Repr

/-- Options passed to `connection.sendTransaction` (lines 236-240). -/
structure SendOptions where
  skipPreflight : Bool
  preflightCommitment : String
  maxRetries : Nat
  deriving DecidableEq, Repr

/-- One network call issued while handling a request.  `sendTransaction`
records the keypairs (by public key, in order) the transaction was signed
with and the submission options; `confirmTransaction` records the
signature/blockhash/height triple it polls with. -/
inductive NetCall where
  | imageFetch (url : String)
  | ipfsUpload
  | tradeLocal (body : TradeRequestBody)
  | getLatestBlockhash
  | sendTransaction (signers : List String) (opts : SendOptions)
  | confirmTransaction (signature blockhash : String) (lastValidBlockHeight : Nat)
  deriving DecidableEq, Repr

/-- The environment of one request: the outcome every external collaborator
would produce.  `mintPubkey` is the base58 public key of the keypair
`Keypair.generate()` yields for this request; `walletPubkey` is the base58
address the wallet SDK derives from the supplied private key. -/
structure Env where
  mintPubkey : String
  walletPubkey : String
  imageFetch : HttpOutcome Unit
  ipfsFetch : HttpOutcome MetadataResponse
  tradeFetch : HttpOutcome String
  deserializeResult : Except Thrown Unit
  blockhashResult : Except Thrown (String × Nat)
  sendResult : Except Thrown String
  confirmResult : Except Thrown (Option String)
  deriving Repr

/-- `x?.field || default` on a JS number: the default is used when the
field access is `undefined` or the value is falsy (`0`). -/
def jsOr (x : Option ℚ) (d : ℚ) : ℚ :=
  match x with
  | none => d
  | some v => if v = 0 then d else v

/-- `uploadMetadata` (index.ts lines 153-188): builds the form, fetches the
image from the caller-supplied URL (note: the source never checks
`imageResponse.ok`, only a rejected promise aborts here), then POSTs the
multipart form to the IPFS endpoint; a non-success status there throws
`Metadata upload failed: <statusText>`. -/
def uploadMetadata (_tokenName _tokenTicker _description imageUrl : String)
    (env : Env) : Except Thrown MetadataResponse × List NetCall :=
  match env.imageFetch with
  | .reject t => (.error t, [.imageFetch imageUrl])
  | .response _ _ _ =>
    match env.ipfsFetch with
    | .reject t => (.error t, [.imageFetch imageUrl, .ipfsUpload])
    | .response status statusText body =>
      if httpOk status then
        (.ok body, [.imageFetch imageUrl, .ipfsUpload])
      else
        (.error (.error ("Metadata upload failed: " ++ statusText) none),
          [.imageFetch imageUrl, .ipfsUpload])

/-- The JSON body `createTokenTransaction` builds (lines 199-213),
including the `||` fallbacks for the three tuning parameters. -/
def mkTradeBody (walletPubkey mintPubkey : String) (md : MetadataResponse)
    (options : Option TokenOptions) : TradeRequestBody :=
  { publicKey := walletPubkey
    action := "create"
    tokenMetadataName := md.metadata.name
    tokenMetadataSymbol := md.metadata.symbol
    tokenMetadataUri := md.metadataUri
    mint := mintPubkey
    denominatedInSol := "true"
    amount := jsOr (options.bind (·.initialLiquiditySOL)) (1 / 10000)
    slippage := jsOr (options.bind (·.slippageBps)) 5
    priorityFee := jsOr (options.bind (·.priorityFee)) (5 / 100000)
    pool := "pump" }

/-- `createTokenTransaction` (lines 190-223): POSTs the trade body; a
non-success status reads the response text and throws
`Transaction creation failed: <status> - <errorText>`. -/
def createTokenTransaction (walletPubkey mintPubkey : String)
    (md : MetadataResponse) (options : Option TokenOptions) (env : Env) :
    Except Thrown Unit × List NetCall :=
  let body := mkTradeBody walletPubkey mintPubkey md options
  match env.tradeFetch with
  | .reject t => (.error t, [.tradeLocal body])
  | .response status _ text =>
    if httpOk status then (.ok (), [.tradeLocal body])
    else
      (.error (.error ("Transaction creation failed: " ++ toString status
          ++ " - " ++ text) none),
        [.tradeLocal body])

/-- `signAndSendTransaction` (lines 225-255): fetch the latest blockhash,
inject it, sign with `[mintKeypair, agent.wallet]` (in that order), submit
with preflight enabled / commitment "confirmed" / 5 retries, confirm; a
non-null `confirmation.value.err` throws `Transaction failed: <err>`. -/
def signAndSendTransaction (walletPubkey mintPubkey : String) (env : Env) :
    Except Thrown String × List NetCall :=
  match env.blockhashResult with
  | .error t => (.error t, [.getLatestBlockhash])
  | .ok (blockhash, lastValidBlockHeight) =>
    let signers := [mintPubkey, walletPubkey]
    let opts : SendOptions :=
      { skipPreflight := false, preflightCommitment := "confirmed", maxRetries := 5 }
    match env.sendResult with
    | .error t => (.error t, [.getLatestBlockhash, .sendTransaction signers opts])
    | .ok signature =>
      match env.confirmResult with
      | .error t =>
        (.error t,
          [.getLatestBlockhash, .sendTransaction signers opts,
            .confirmTransaction signature blockhash lastValidBlockHeight])
      | .ok confErr =>
        match confErr with
        | some e =>
          (.error (.error ("Transaction failed: " ++ e) none),
            [.getLatestBlockhash, .sendTransaction signers opts,
              .confirmTransaction signature blockhash lastValidBlockHeight])
        | none =>
          (.ok signature,
            [.getLatestBlockhash, .sendTransaction signers opts,
              .confirmTransaction signature blockhash lastValidBlockHeight])

/-- The catch block (lines 135-142): any thrown value becomes
`{success: false, error: error instanceof Error ? error.message :
"Unknown error occurred"}`; no other field is set. -/
def catchResult (t : Thrown) : LaunchResult :=
  { success := false, data := none, error := some (thrownMessage t) }

/-- The `POST /launch-token` handler body (lines 99-142): generate a mint
keypair, build the agent, then run the four steps sequentially; any throw
lands in the catch block. -/
def handleLaunchToken (req : TokenLaunchRequest) (env : Env) :
    LaunchResult × List NetCall :=
  let (mdRes, t1) :=
    uploadMetadata req.tokenName req.tokenTicker req.description req.imageUrl env
  match mdRes with
  | .error t => (catchResult t, t1)
  | .ok md =>
    let (txRes, t2) :=
      createTokenTransaction env.walletPubkey env.mintPubkey md req.options env
    match txRes with
    | .error t => (catchResult t, t1 ++ t2)
    | .ok () =>
      match env.deserializeResult with
      | .error t => (catchResult t, t1 ++ t2)
      | .ok () =>
        let (sigRes, t3) := signAndSendTransaction env.walletPubkey env.mintPubkey env
        match sigRes with
        | .error t => (catchResult t, t1 ++ t2 ++ t3)
        | .ok signature =>
          ({ success := true
             data := some
               { signature := signature
                 mintAddress := env.mintPubkey
                 metadataUri := md.metadataUri }
             error := none },
            t1 ++ t2 ++ t3)

/-- One character class test of the ticker pattern `[A-Z0-9]`. -/
def isTickerChar (c : Char) : Bool :=
  ('A' ≤ c && c ≤ 'Z') || ('0' ≤ c && c ≤ '9')

/-- The regex test `^[A-Z0-9]+$` on the whole string. -/
def matchesTickerPattern (s : String) : Bool :=
  1 ≤ s.length && s.data.all isTickerChar

/-- The regex test `^https?://` (an unanchored-at-the-end prefix match). -/
def matchesImageUrlPattern (s : String) : Bool :=
  "http://".data.isPrefixOf s.data || "https://".data.isPrefixOf s.data

/-- Bounds of `TokenOptionsSchema` on whichever tuning fields are present. -/
def validOptions (o : TokenOptions) : Bool :=
  (match o.initialLiquiditySOL with
   | none => true
   | some v => decide ((1 : ℚ) / 10000 ≤ v)) &&
  (match o.slippageBps with
   | none => true
   | some v => decide ((1 : ℚ) ≤ v ∧ v ≤ 1000)) &&
  (match o.priorityFee with
   | none => true
   | some v => decide ((1 : ℚ) / 100000 ≤ v))

/-- The body validation the route declares via `TokenLaunchRequestSchema`
(lines 32-63): length bounds, the ticker and image-URL patterns, and the
tuning bounds.  `privateKey` and `rpcUrl` carry no constraint. -/
def validateRequest (req : TokenLaunchRequest) : Bool :=
  (1 ≤ req.tokenName.length && req.tokenName.length ≤ 32) &&
  (2 ≤ req.tokenTicker.length && req.tokenTicker.length ≤ 10) &&
  matchesTickerPattern req.tokenTicker &&
  (1 ≤ req.description.length && req.description.length ≤ 1000) &&
  matchesImageUrlPattern req.imageUrl &&
  (match req.options with
   | none => true
   | some o => validOptions o)

/-- The full route `POST /launch-token`: the framework validates the body
against `TokenLaunchRequestSchema` before the handler runs, so an invalid
body is rejected with a validation error (`none` here) and the handler —
hence every network call — is never reached. -/
def postLaunchToken (req : TokenLaunchRequest) (env : Env) :
    Option LaunchResult × List NetCall :=
  if validateRequest req then
    let (r, tr) := handleLaunchToken req env
    (some r, tr)
  else
    (none, [])

/-- Does the trace contain a call to the trade-construction service? -/
def hasTradeCall (tr : List NetCall) : Bool :=
  tr.any fun c => match c with
    | .tradeLocal _ => true
    | _ => false

/-- Does the trace contain a transaction submission? -/
def hasSendCall (tr : List NetCall) : Bool :=
  tr.any fun c => match c with
    | .sendTransaction _ _ => true
    | _ => false

/-- Substring test, used to express "surfaced verbatim in the response". -/
def stringContains (haystack needle : String) : Bool :=
  decide (List.IsInfix needle.data haystack.data)

/-- Does the trace contain a confirmation poll? -/
def hasConfirmCall (tr : List NetCall) : Bool :=
  tr.any fun c => match c with
    | .confirmTransaction _ _ _ => true
    | _ => false

/-! ## Concrete fixtures used by counterexamples and witnesses -/

/-- A request that satisfies every schema constraint. -/
def validReq : TokenLaunchRequest :=
  { tokenName := "Doge Coin"
    tokenTicker := "DOGE"
    description := "A meme token"
    imageUrl := "https://example.com/image.png"
    privateKey := "secret-key"
    rpcUrl := none
    options := none }

/-- `validReq` with a lowercase ticker, violating `^[A-Z0-9]+$`. -/
def badTickerReq : TokenLaunchRequest := { validReq with tokenTicker := "doge" }

/-- An environment in which every collaborator succeeds. -/
def happyEnv : Env :=
  { mintPubkey := "MintPubkey1111"
    walletPubkey := "WalletPubkey1111"
    imageFetch := .response 200 "OK" ()
    ipfsFetch := .response 200 "OK"
      { metadataUri := "ipfs://abc", metadata := { name := "Doge Coin", symbol := "DOGE" } }
    tradeFetch := .response 200 "OK" "serialized-tx-bytes"
    deserializeResult := .ok ()
    blockhashResult := .ok ("blockhash9999", 12345)
    sendResult := .ok "sig7777"
    confirmResult := .ok none }

/-- `happyEnv` except that the image host answers 404: the fetch promise
still resolves, and the source never checks `imageResponse.ok`. -/
def image404Env : Env := { happyEnv with imageFetch := .response 404 "Not Found" () }

/-- `happyEnv` except that submission rejects with an error that carries
simulation log lines. -/
def sendLogsEnv : Env :=
  { happyEnv with
    sendResult := .error (.error "send failed"
      (some ["Program log: insufficient lamports"])) }

/-- `happyEnv` except that the image fetch promise rejects with an `Error`. -/
def imageRejectEnv : Env :=
  { happyEnv with imageFetch := .reject (.error "fetch failed" none) }

/-- `happyEnv` except that the image fetch promise rejects with a
non-`Error` value. -/
def imageNonErrorEnv : Env :=
  { happyEnv with imageFetch := .reject .nonError }

/-- `happyEnv` except that the trade-construction service answers 500. -/
def trade500Env : Env :=
  { happyEnv with tradeFetch := .response 500 "Internal Server Error" "server exploded" }

/-- `happyEnv` except that the confirmation carries an on-chain error. -/
def confirmErrEnv : Env :=
  { happyEnv with confirmResult := .ok (some "InstructionError custom 1") }

/-- The response `happyEnv` produces for `validReq`. -/
def happyResult : LaunchResult :=
  { success := true
    data := some { signature := "sig7777", mintAddress := "MintPubkey1111",
                   metadataUri := "ipfs://abc" }
    error := none }

/-- The tuning block with every field absent. -/
def emptyOptions : TokenOptions :=
  { initialLiquiditySOL := none, slippageBps := none, priorityFee := none }

/-- A tuning block with every field set above its declared minimum. -/
def tunedOptions : TokenOptions :=
  { initialLiquiditySOL := some (1/100), slippageBps := some 10,
    priorityFee := some (1/1000) }

/-- The metadata object `happyEnv`'s IPFS endpoint returns. -/
def sampleMetadata : MetadataResponse :=
  { metadataUri := "ipfs://abc", metadata := { name := "Doge Coin", symbol := "DOGE" } }

/-! ## Run lemmas: one equation per first-failing-step of the pipeline -/

theorem run_image_reject (req : TokenLaunchRequest) (env : Env) (t : Thrown)
    (h : env.imageFetch = .reject t) :
    handleLaunchToken req env = (catchResult t, [.imageFetch req.imageUrl]) := by
  simp [handleLaunchToken, uploadMetadata, h]

theorem run_ipfs_reject (req : TokenLaunchRequest) (env : Env)
    (s1 : Nat) (st1 : String) (b1 : Unit) (t : Thrown)
    (h1 : env.imageFetch = .response s1 st1 b1)
    (h2 : env.ipfsFetch = .reject t) :
    handleLaunchToken req env =
      (catchResult t, [.imageFetch req.imageUrl, .ipfsUpload]) := by
  simp [handleLaunchToken, uploadMetadata, h1, h2]

theorem run_ipfs_bad (req : TokenLaunchRequest) (env : Env)
    (s1 : Nat) (st1 : String) (b1 : Unit)
    (s2 : Nat) (st2 : String) (md : MetadataResponse)
    (h1 : env.imageFetch = .response s1 st1 b1)
    (h2 : env.ipfsFetch = .response s2 st2 md) (hok2 : httpOk s2 = false) :
    handleLaunchToken req env =
      (catchResult (.error ("Metadata upload failed: " ++ st2) none),
       [.imageFetch req.imageUrl, .ipfsUpload]) := by
  simp [handleLaunchToken, uploadMetadata, h1, h2, hok2]

theorem run_trade_reject (req : TokenLaunchRequest) (env : Env)
    (s1 : Nat) (st1 : String) (b1 : Unit)
    (s2 : Nat) (st2 : String) (md : MetadataResponse) (t : Thrown)
    (h1 : env.imageFetch = .response s1 st1 b1)
    (h2 : env.ipfsFetch = .response s2 st2 md) (hok2 : httpOk s2 = true)
    (h3 : env.tradeFetch = .reject t) :
    handleLaunchToken req env =
      (catchResult t,
       [.imageFetch req.imageUrl, .ipfsUpload,
        .tradeLocal (mkTradeBody env.walletPubkey env.mintPubkey md req.options)]) := by
  simp [handleLaunchToken, uploadMetadata, createTokenTransaction, h1, h2, hok2, h3]

theorem run_trade_bad (req : TokenLaunchRequest) (env : Env)
    (s1 : Nat) (st1 : String) (b1 : Unit)
    (s2 : Nat) (st2 : String) (md : MetadataResponse)
    (s3 : Nat) (st3 text : String)
    (h1 : env.imageFetch = .response s1 st1 b1)
    (h2 : env.ipfsFetch = .response s2 st2 md) (hok2 : httpOk s2 = true)
    (h3 : env.tradeFetch = .response s3 st3 text) (hok3 : httpOk s3 = false) :
    handleLaunchToken req env =
      (catchResult (.error ("Transaction creation failed: " ++ toString s3
          ++ " - " ++ text) none),
       [.imageFetch req.imageUrl, .ipfsUpload,
        .tradeLocal (mkTradeBody env.walletPubkey env.mintPubkey md req.options)]) := by
  simp [handleLaunchToken, uploadMetadata, createTokenTransaction, h1, h2, hok2, h3, hok3]

theorem run_deserialize_error (req : TokenLaunchRequest) (env : Env)
    (s1 : Nat) (st1 : String) (b1 : Unit)
    (s2 : Nat) (st2 : String) (md : MetadataResponse)
    (s3 : Nat) (st3 b3 : String) (t : Thrown)
    (h1 : env.imageFetch = .response s1 st1 b1)
    (h2 : env.ipfsFetch = .response s2 st2 md) (hok2 : httpOk s2 = true)
    (h3 : env.tradeFetch = .response s3 st3 b3) (hok3 : httpOk s3 = true)
    (h4 : env.deserializeResult = .error t) :
    handleLaunchToken req env =
      (catchResult t,
       [.imageFetch req.imageUrl, .ipfsUpload,
        .tradeLocal (mkTradeBody env.walletPubkey env.mintPubkey md req.options)]) := by
  simp [handleLaunchToken, uploadMetadata, createTokenTransaction, h1, h2, hok2, h3, hok3, h4]

theorem run_blockhash_error (req : TokenLaunchRequest) (env : Env)
    (s1 : Nat) (st1 : String) (b1 : Unit)
    (s2 : Nat) (st2 : String) (md : MetadataResponse)
    (s3 : Nat) (st3 b3 : String) (t : Thrown)
    (h1 : env.imageFetch = .response s1 st1 b1)
    (h2 : env.ipfsFetch = .response s2 st2 md) (hok2 : httpOk s2 = true)
    (h3 : env.tradeFetch = .response s3 st3 b3) (hok3 : httpOk s3 = true)
    (h4 : env.deserializeResult = .ok ())
    (h5 : env.blockhashResult = .error t) :
    handleLaunchToken req env =
      (catchResult t,
       [.imageFetch req.imageUrl, .ipfsUpload,
        .tradeLocal (mkTradeBody env.walletPubkey env.mintPubkey md req.options),
        .getLatestBlockhash]) := by
  simp [handleLaunchToken, uploadMetadata, createTokenTransaction,
    signAndSendTransaction, h1, h2, hok2, h3, hok3, h4, h5]

theorem run_send_error (req : TokenLaunchRequest) (env : Env)
    (s1 : Nat) (st1 : String) (b1 : Unit)
    (s2 : Nat) (st2 : String) (md : MetadataResponse)
    (s3 : Nat) (st3 b3 : String) (bh : String) (lh : Nat) (t : Thrown)
    (h1 : env.imageFetch = .response s1 st1 b1)
    (h2 : env.ipfsFetch = .response s2 st2 md) (hok2 : httpOk s2 = true)
    (h3 : env.tradeFetch = .response s3 st3 b3) (hok3 : httpOk s3 = true)
    (h4 : env.deserializeResult = .ok ())
    (h5 : env.blockhashResult = .ok (bh, lh))
    (h6 : env.sendResult = .error t) :
    handleLaunchToken req env =
      (catchResult t,
       [.imageFetch req.imageUrl, .ipfsUpload,
        .tradeLocal (mkTradeBody env.walletPubkey env.mintPubkey md req.options),
        .getLatestBlockhash,
        .sendTransaction [env.mintPubkey, env.walletPubkey]
          { skipPreflight := false, preflightCommitment := "confirmed", maxRetries := 5 }]) := by
  simp [handleLaunchToken, uploadMetadata, createTokenTransaction,
    signAndSendTransaction, h1, h2, hok2, h3, hok3, h4, h5, h6]

theorem run_confirm_reject (req : TokenLaunchRequest) (env : Env)
    (s1 : Nat) (st1 : String) (b1 : Unit)
    (s2 : Nat) (st2 : String) (md : MetadataResponse)
    (s3 : Nat) (st3 b3 : String) (bh : String) (lh : Nat) (sig : String) (t : Thrown)
    (h1 : env.imageFetch = .response s1 st1 b1)
    (h2 : env.ipfsFetch = .response s2 st2 md) (hok2 : httpOk s2 = true)
    (h3 : env.tradeFetch = .response s3 st3 b3) (hok3 : httpOk s3 = true)
    (h4 : env.deserializeResult = .ok ())
    (h5 : env.blockhashResult = .ok (bh, lh))
    (h6 : env.sendResult = .ok sig)
    (h7 : env.confirmResult = .error t) :
    handleLaunchToken req env =
      (catchResult t,
       [.imageFetch req.imageUrl, .ipfsUpload,
        .tradeLocal (mkTradeBody env.walletPubkey env.mintPubkey md req.options),
        .getLatestBlockhash,
        .sendTransaction [env.mintPubkey, env.walletPubkey]
          { skipPreflight := false, preflightCommitment := "confirmed", maxRetries := 5 },
        .confirmTransaction sig bh lh]) := by
  simp [handleLaunchToken, uploadMetadata, createTokenTransaction,
    signAndSendTransaction, h1, h2, hok2, h3, hok3, h4, h5, h6, h7]

theorem run_confirm_err (req : TokenLaunchRequest) (env : Env)
    (s1 : Nat) (st1 : String) (b1 : Unit)
    (s2 : Nat) (st2 : String) (md : MetadataResponse)
    (s3 : Nat) (st3 b3 : String) (bh : String) (lh : Nat) (sig e : String)
    (h1 : env.imageFetch = .response s1 st1 b1)
    (h2 : env.ipfsFetch = .response s2 st2 md) (hok2 : httpOk s2 = true)
    (h3 : env.tradeFetch = .response s3 st3 b3) (hok3 : httpOk s3 = true)
    (h4 : env.deserializeResult = .ok ())
    (h5 : env.blockhashResult = .ok (bh, lh))
    (h6 : env.sendResult = .ok sig)
    (h7 : env.confirmResult = .ok (some e)) :
    handleLaunchToken req env =
      (catchResult (.error ("Transaction failed: " ++ e) none),
       [.imageFetch req.imageUrl, .ipfsUpload,
        .tradeLocal (mkTradeBody env.walletPubkey env.mintPubkey md req.options),
        .getLatestBlockhash,
        .sendTransaction [env.mintPubkey, env.walletPubkey]
          { skipPreflight := false, preflightCommitment := "confirmed", maxRetries := 5 },
        .confirmTransaction sig bh lh]) := by
  simp [handleLaunchToken, uploadMetadata, createTokenTransaction,
    signAndSendTransaction, h1, h2, hok2, h3, hok3, h4, h5, h6, h7]

theorem run_happy (req : TokenLaunchRequest) (env : Env)
    (s1 : Nat) (st1 : String) (b1 : Unit)
    (s2 : Nat) (st2 : String) (md : MetadataResponse)
    (s3 : Nat) (st3 b3 : String) (bh : String) (lh : Nat) (sig : String)
    (h1 : env.imageFetch = .response s1 st1 b1)
    (h2 : env.ipfsFetch = .response s2 st2 md) (hok2 : httpOk s2 = true)
    (h3 : env.tradeFetch = .response s3 st3 b3) (hok3 : httpOk s3 = true)
    (h4 : env.deserializeResult = .ok ())
    (h5 : env.blockhashResult = .ok (bh, lh))
    (h6 : env.sendResult = .ok sig)
    (h7 : env.confirmResult = .ok none) :
    handleLaunchToken req env =
      ({ success := true
         data := some { signature := sig, mintAddress := env.mintPubkey,
                        metadataUri := md.metadataUri }
         error := none },
       [.imageFetch req.imageUrl, .ipfsUpload,
        .tradeLocal (mkTradeBody env.walletPubkey env.mintPubkey md req.options),
        .getLatestBlockhash,
        .sendTransaction [env.mintPubkey, env.walletPubkey]
          { skipPreflight := false, preflightCommitment := "confirmed", maxRetries := 5 },
        .confirmTransaction sig bh lh]) := by
  simp [handleLaunchToken, uploadMetadata, createTokenTransaction,
    signAndSendTransaction, h1, h2, hok2, h3, hok3, h4, h5, h6, h7]

/-- Every handler result is either the catch block's output for some thrown
value, or the success payload built from the submission signature, the
request's mint public key and the uploaded metadata URI — the latter only
when the confirmation carried no on-chain error. -/
theorem handle_result_shape (req : TokenLaunchRequest) (env : Env) :
    (∃ t, (handleLaunchToken req env).1 = catchResult t) ∨
    ((∃ (sig : String) (md : MetadataResponse), (handleLaunchToken req env).1 =
        { success := true
          data := some { signature := sig, mintAddress := env.mintPubkey,
                         metadataUri := md.metadataUri }
          error := none }) ∧
      env.confirmResult = Except.ok none) := by
  rcases h1 : env.imageFetch with t | ⟨s1, st1, b1⟩
  · exact Or.inl ⟨t, by rw [run_image_reject req env t h1]⟩
  rcases h2 : env.ipfsFetch with t | ⟨s2, st2, md⟩
  · exact Or.inl ⟨t, by rw [run_ipfs_reject req env s1 st1 b1 t h1 h2]⟩
  rcases hok2 : httpOk s2 with _ | _
  · exact Or.inl ⟨_, by rw [run_ipfs_bad req env s1 st1 b1 s2 st2 md h1 h2 hok2]⟩
  rcases h3 : env.tradeFetch with t | ⟨s3, st3, b3⟩
  · exact Or.inl ⟨t, by rw [run_trade_reject req env s1 st1 b1 s2 st2 md t h1 h2 hok2 h3]⟩
  rcases hok3 : httpOk s3 with _ | _
  · exact Or.inl ⟨_, by
      rw [run_trade_bad req env s1 st1 b1 s2 st2 md s3 st3 b3 h1 h2 hok2 h3 hok3]⟩
  rcases h4 : env.deserializeResult with t | u
  · exact Or.inl ⟨t, by
      rw [run_deserialize_error req env s1 st1 b1 s2 st2 md s3 st3 b3 t h1 h2 hok2 h3 hok3 h4]⟩
  rcases u
  rcases h5 : env.blockhashResult with t | ⟨bh, lh⟩
  · exact Or.inl ⟨t, by
      rw [run_blockhash_error req env s1 st1 b1 s2 st2 md s3 st3 b3 t h1 h2 hok2 h3 hok3 h4 h5]⟩
  rcases h6 : env.sendResult with t | sig
  · exact Or.inl ⟨t, by
      rw [run_send_error req env s1 st1 b1 s2 st2 md s3 st3 b3 bh lh t h1 h2 hok2 h3 hok3 h4 h5 h6]⟩
  rcases h7 : env.confirmResult with t | ce
  · exact Or.inl ⟨t, by
      rw [run_confirm_reject req env s1 st1 b1 s2 st2 md s3 st3 b3 bh lh sig t h1 h2 hok2 h3 hok3 h4 h5 h6 h7]⟩
  rcases ce with _ | e
  · refine Or.inr ⟨⟨sig, md, ?_⟩, ?_⟩
    · rw [run_happy req env s1 st1 b1 s2 st2 md s3 st3 b3 bh lh sig h1 h2 hok2 h3 hok3 h4 h5 h6 h7]
    · first
      | exact h7
      | rfl
  · exact Or.inl ⟨_, by
      rw [run_confirm_err req env s1 st1 b1 s2 st2 md s3 st3 b3 bh lh sig e h1 h2 hok2 h3 hok3 h4 h5 h6 h7]⟩

/-- C1: for every request that passes validation, the returned
`LaunchResult` has exactly one of data and error populated — success=true
with a data payload and no error message, or success=false with an error
message and no data payload; never both, never neither. -/
theorem C1_result_exactly_one (req : TokenLaunchRequest) (env : Env)
    (hv : validateRequest req = true) (r : LaunchResult)
    (hr : (postLaunchToken req env).1 = some r) :
    (r.success = true ∧ r.data.isSome = true ∧ r.error = none) ∨
    (r.success = false ∧ r.data = none ∧ (r.error).isSome = true) := by
  have hpost : (postLaunchToken req env).1 = some (handleLaunchToken req env).1 := by
    simp [postLaunchToken, hv]
  rw [hpost] at hr
  injection hr with hr
  rcases handle_result_shape req env with ⟨t, hshape⟩ | ⟨⟨sig, md, hshape⟩, _⟩
  · right
    rw [← hr, hshape]
    simp [catchResult]
  · left
    rw [← hr, hshape]
    simp

/-- Witness for C1 at the valid request and all-success environment. -/
theorem C1_result_exactly_one_witness :
    (happyResult.success = true ∧ happyResult.data.isSome = true ∧
      happyResult.error = none) ∨
    (happyResult.success = false ∧ happyResult.data = none ∧
      (happyResult.error).isSome = true) :=
  C1_result_exactly_one validReq happyEnv (by decide) happyResult (by rfl)

/-- C2, counterexample to the claim as stated: when the image host
answers HTTP 404 — a non-success status — the request does not fail and
the transaction-construction service IS reached (here the launch even
succeeds), because the source never checks `imageResponse.ok`. -/
theorem C2_counterexample :
    image404Env.imageFetch = HttpOutcome.response 404 "Not Found" () ∧
    httpOk 404 = false ∧
    hasTradeCall (handleLaunchToken validReq image404Env).2 = true ∧
    (handleLaunchToken validReq image404Env).1.success = true := by
  refine ⟨rfl, rfl, ?_, ?_⟩ <;> rfl

/-- C2 amended: when the image fetch promise rejects (remote host
unreachable, network failure), the request fails with that fetch error
and the transaction-construction service is never called.  A non-success
HTTP status on the image fetch, however, is not detected. -/
theorem C2_image_reject_short_circuit (req : TokenLaunchRequest) (env : Env)
    (t : Thrown) (h : env.imageFetch = .reject t) :
    (handleLaunchToken req env).1 = catchResult t ∧
    (handleLaunchToken req env).1.success = false ∧
    hasTradeCall (handleLaunchToken req env).2 = false := by
  rw [run_image_reject req env t h]
  exact ⟨rfl, rfl, rfl⟩

/-- Witness for C2 (amended) at a rejecting image fetch. -/
theorem C2_image_reject_short_circuit_witness :
    (handleLaunchToken validReq imageRejectEnv).1 =
      catchResult (.error "fetch failed" none) ∧
    (handleLaunchToken validReq imageRejectEnv).1.success = false ∧
    hasTradeCall (handleLaunchToken validReq imageRejectEnv).2 = false :=
  C2_image_reject_short_circuit validReq imageRejectEnv (.error "fetch failed" none) rfl

/-- C3, counterexample to the claim as stated: a submission failure
carrying a simulation log line produces a failure response consisting
only of the error message; the log line is not surfaced anywhere in the
response (it is not even a substring of the error field). -/
theorem C3_counterexample :
    sendLogsEnv.sendResult =
      Except.error (Thrown.error "send failed"
        (some ["Program log: insufficient lamports"])) ∧
    (handleLaunchToken validReq sendLogsEnv).1 =
      { success := false, data := none, error := some "send failed" } ∧
    stringContains "send failed" "Program log: insufficient lamports" = false := by
  refine ⟨rfl, by rfl, by decide⟩

/-- C3 amended: diagnostic log lines carried by a failure are NOT
surfaced in the response: the failure response is exactly success=false
with the thrown error's message, whatever log lines the failure
carried. -/
theorem C3_logs_not_surfaced (req : TokenLaunchRequest) (env : Env)
    (s1 : Nat) (st1 : String) (b1 : Unit)
    (s2 : Nat) (st2 : String) (md : MetadataResponse)
    (s3 : Nat) (st3 b3 : String) (bh : String) (lh : Nat)
    (m : String) (logs : List String)
    (h1 : env.imageFetch = .response s1 st1 b1)
    (h2 : env.ipfsFetch = .response s2 st2 md) (hok2 : httpOk s2 = true)
    (h3 : env.tradeFetch = .response s3 st3 b3) (hok3 : httpOk s3 = true)
    (h4 : env.deserializeResult = .ok ())
    (h5 : env.blockhashResult = .ok (bh, lh))
    (h6 : env.sendResult = .error (.error m (some logs))) :
    (handleLaunchToken req env).1 =
      { success := false, data := none, error := some m } := by
  rw [run_send_error req env s1 st1 b1 s2 st2 md s3 st3 b3 bh lh _ h1 h2 hok2 h3 hok3 h4 h5 h6]
  rfl

/-- Witness for C3 (amended) at a send failure carrying log lines. -/
theorem C3_logs_not_surfaced_witness :
    (handleLaunchToken validReq sendLogsEnv).1 =
      { success := false, data := none, error := some "send failed" } :=
  C3_logs_not_surfaced validReq sendLogsEnv 200 "OK" () 200 "OK"
    { metadataUri := "ipfs://abc", metadata := { name := "Doge Coin", symbol := "DOGE" } }
    200 "OK" "serialized-tx-bytes" "blockhash9999" 12345
    "send failed" ["Program log: insufficient lamports"]
    rfl rfl rfl rfl rfl rfl rfl rfl

/-- C4: a request whose ticker contains a character outside A-Z0-9, or
whose ticker length lies outside 2-10, is rejected by schema validation
and no network call of any kind is issued — the call trace is empty. -/
theorem C4_bad_ticker_rejected (req : TokenLaunchRequest) (env : Env)
    (h : req.tokenTicker.data.all isTickerChar = false ∨
         req.tokenTicker.length < 2 ∨ 10 < req.tokenTicker.length) :
    postLaunchToken req env = (none, []) := by
  have hv : validateRequest req = false := by
    rcases hb : validateRequest req with _ | _
    · rfl
    · exfalso
      simp only [validateRequest, matchesTickerPattern, Bool.and_eq_true,
        decide_eq_true_eq] at hb
      obtain ⟨⟨⟨⟨⟨hA, hB⟩, hpat⟩, hC⟩, hD⟩, hE⟩ := hb
      rcases h with h | h | h
      · rw [hpat.2] at h
        exact Bool.noConfusion h
      · omega
      · omega
  simp [postLaunchToken, hv]

/-- Witness for C4 at a lowercase ticker. -/
theorem C4_bad_ticker_rejected_witness :
    badTickerReq.tokenTicker.data.all isTickerChar = false ∧
    postLaunchToken badTickerReq happyEnv = (none, []) :=
  ⟨by decide, C4_bad_ticker_rejected badTickerReq happyEnv (Or.inl (by decide))⟩

/-- C5: when the transaction-construction service returns a non-success
HTTP status, the failure response carries the BuildError message built
from the status and response text, the service was indeed called, and no
transaction is ever submitted to the network client. -/
theorem C5_build_error_no_submission (req : TokenLaunchRequest) (env : Env)
    (s1 : Nat) (st1 : String) (b1 : Unit)
    (s2 : Nat) (st2 : String) (md : MetadataResponse)
    (s3 : Nat) (st3 text : String)
    (h1 : env.imageFetch = .response s1 st1 b1)
    (h2 : env.ipfsFetch = .response s2 st2 md) (hok2 : httpOk s2 = true)
    (h3 : env.tradeFetch = .response s3 st3 text) (hbad : httpOk s3 = false) :
    (handleLaunchToken req env).1 =
      { success := false, data := none,
        error := some ("Transaction creation failed: " ++ toString s3
          ++ " - " ++ text) } ∧
    hasTradeCall (handleLaunchToken req env).2 = true ∧
    hasSendCall (handleLaunchToken req env).2 = false := by
  rw [run_trade_bad req env s1 st1 b1 s2 st2 md s3 st3 text h1 h2 hok2 h3 hbad]
  exact ⟨rfl, rfl, rfl⟩

/-- Witness for C5 at a 500 answer from the trade service. -/
theorem C5_build_error_no_submission_witness :
    (handleLaunchToken validReq trade500Env).1 =
      { success := false, data := none,
        error := some ("Transaction creation failed: " ++ toString 500
          ++ " - " ++ "server exploded") } ∧
    hasTradeCall (handleLaunchToken validReq trade500Env).2 = true ∧
    hasSendCall (handleLaunchToken validReq trade500Env).2 = false :=
  C5_build_error_no_submission validReq trade500Env 200 "OK" () 200 "OK"
    { metadataUri := "ipfs://abc", metadata := { name := "Doge Coin", symbol := "DOGE" } }
    500 "Internal Server Error" "server exploded" rfl rfl rfl rfl rfl

/-- C6: every transaction submission occurring in any run is signed with
the mint keypair first and the wallet keypair second, and submitted with
preflight simulation enabled (skipPreflight=false), preflight commitment
"confirmed" and a maximum of 5 submission retries. -/
theorem C6_sign_order_and_send_options (req : TokenLaunchRequest) (env : Env)
    (signers : List String) (opts : SendOptions)
    (h : NetCall.sendTransaction signers opts ∈ (handleLaunchToken req env).2) :
    signers = [env.mintPubkey, env.walletPubkey] ∧
    opts = { skipPreflight := false, preflightCommitment := "confirmed",
             maxRetries := 5 } := by
  rcases h1 : env.imageFetch with t | ⟨s1, st1, b1⟩
  · rw [run_image_reject req env t h1] at h
    simp at h
  rcases h2 : env.ipfsFetch with t | ⟨s2, st2, md⟩
  · rw [run_ipfs_reject req env s1 st1 b1 t h1 h2] at h
    simp at h
  rcases hok2 : httpOk s2 with _ | _
  · rw [run_ipfs_bad req env s1 st1 b1 s2 st2 md h1 h2 hok2] at h
    simp at h
  rcases h3 : env.tradeFetch with t | ⟨s3, st3, b3⟩
  · rw [run_trade_reject req env s1 st1 b1 s2 st2 md t h1 h2 hok2 h3] at h
    simp at h
  rcases hok3 : httpOk s3 with _ | _
  · rw [run_trade_bad req env s1 st1 b1 s2 st2 md s3 st3 b3 h1 h2 hok2 h3 hok3] at h
    simp at h
  rcases h4 : env.deserializeResult with t | u
  · rw [run_deserialize_error req env s1 st1 b1 s2 st2 md s3 st3 b3 t h1 h2 hok2 h3 hok3 h4] at h
    simp at h
  rcases u
  rcases h5 : env.blockhashResult with t | ⟨bh, lh⟩
  · rw [run_blockhash_error req env s1 st1 b1 s2 st2 md s3 st3 b3 t h1 h2 hok2 h3 hok3 h4 h5] at h
    simp at h
  rcases h6 : env.sendResult with t | sig
  · rw [run_send_error req env s1 st1 b1 s2 st2 md s3 st3 b3 bh lh t h1 h2 hok2 h3 hok3 h4 h5 h6] at h
    simp at h
    exact h
  rcases h7 : env.confirmResult with t | ce
  · rw [run_confirm_reject req env s1 st1 b1 s2 st2 md s3 st3 b3 bh lh sig t h1 h2 hok2 h3 hok3 h4 h5 h6 h7] at h
    simp at h
    exact h
  rcases ce with _ | e
  · rw [run_happy req env s1 st1 b1 s2 st2 md s3 st3 b3 bh lh sig h1 h2 hok2 h3 hok3 h4 h5 h6 h7] at h
    simp at h
    exact h
  · rw [run_confirm_err req env s1 st1 b1 s2 st2 md s3 st3 b3 bh lh sig e h1 h2 hok2 h3 hok3 h4 h5 h6 h7] at h
    simp at h
    exact h

/-- Witness for C6 at the all-success environment. -/
theorem C6_sign_order_and_send_options_witness :
    NetCall.sendTransaction ["MintPubkey1111", "WalletPubkey1111"]
        { skipPreflight := false, preflightCommitment := "confirmed", maxRetries := 5 } ∈
      (handleLaunchToken validReq happyEnv).2 ∧
    (["MintPubkey1111", "WalletPubkey1111"]
        = [happyEnv.mintPubkey, happyEnv.walletPubkey] ∧
      ({ skipPreflight := false, preflightCommitment := "confirmed",
         maxRetries := 5 } : SendOptions)
        = { skipPreflight := false, preflightCommitment := "confirmed",
            maxRetries := 5 }) :=
  ⟨by decide,
   C6_sign_order_and_send_options validReq happyEnv
     ["MintPubkey1111", "WalletPubkey1111"]
     { skipPreflight := false, preflightCommitment := "confirmed", maxRetries := 5 }
     (by decide)⟩

/-- C7: whenever the confirmation result carries a non-null on-chain
error, the response reports failure with no data payload — hence no
signature field — and if the confirmation poll was reached, the error
message is the SubmissionError text built from the on-chain error. -/
theorem C7_confirm_error_no_signature (req : TokenLaunchRequest) (env : Env)
    (e : String) (h : env.confirmResult = Except.ok (some e)) :
    ((handleLaunchToken req env).1.success = false ∧
     (handleLaunchToken req env).1.data = none) ∧
    (hasConfirmCall (handleLaunchToken req env).2 = true →
      (handleLaunchToken req env).1.error =
        some ("Transaction failed: " ++ e)) := by
  rcases h1 : env.imageFetch with t | ⟨s1, st1, b1⟩
  · rw [run_image_reject req env t h1]
    simp [catchResult, hasConfirmCall]
  rcases h2 : env.ipfsFetch with t | ⟨s2, st2, md⟩
  · rw [run_ipfs_reject req env s1 st1 b1 t h1 h2]
    simp [catchResult, hasConfirmCall]
  rcases hok2 : httpOk s2 with _ | _
  · rw [run_ipfs_bad req env s1 st1 b1 s2 st2 md h1 h2 hok2]
    simp [catchResult, hasConfirmCall]
  rcases h3 : env.tradeFetch with t | ⟨s3, st3, b3⟩
  · rw [run_trade_reject req env s1 st1 b1 s2 st2 md t h1 h2 hok2 h3]
    simp [catchResult, hasConfirmCall]
  rcases hok3 : httpOk s3 with _ | _
  · rw [run_trade_bad req env s1 st1 b1 s2 st2 md s3 st3 b3 h1 h2 hok2 h3 hok3]
    simp [catchResult, hasConfirmCall]
  rcases h4 : env.deserializeResult with t | u
  · rw [run_deserialize_error req env s1 st1 b1 s2 st2 md s3 st3 b3 t h1 h2 hok2 h3 hok3 h4]
    simp [catchResult, hasConfirmCall]
  rcases u
  rcases h5 : env.blockhashResult with t | ⟨bh, lh⟩
  · rw [run_blockhash_error req env s1 st1 b1 s2 st2 md s3 st3 b3 t h1 h2 hok2 h3 hok3 h4 h5]
    simp [catchResult, hasConfirmCall]
  rcases h6 : env.sendResult with t | sig
  · rw [run_send_error req env s1 st1 b1 s2 st2 md s3 st3 b3 bh lh t h1 h2 hok2 h3 hok3 h4 h5 h6]
    simp [catchResult, hasConfirmCall]
  · rw [run_confirm_err req env s1 st1 b1 s2 st2 md s3 st3 b3 bh lh sig e h1 h2 hok2 h3 hok3 h4 h5 h6 h]
    simp [catchResult, hasConfirmCall, thrownMessage]

/-- Witness for C7 at a confirmation carrying an on-chain error. -/
theorem C7_confirm_error_no_signature_witness :
    ((handleLaunchToken validReq confirmErrEnv).1.success = false ∧
     (handleLaunchToken validReq confirmErrEnv).1.data = none) ∧
    (hasConfirmCall (handleLaunchToken validReq confirmErrEnv).2 = true →
      (handleLaunchToken validReq confirmErrEnv).1.error =
        some ("Transaction failed: " ++ "InstructionError custom 1")) :=
  C7_confirm_error_no_signature validReq confirmErrEnv
    "InstructionError custom 1" rfl

/-- C8: the trade request body falls back to the fixed defaults —
liquidity 0.0001, slippage 5 basis points, priority fee 0.00005 — when
the tuning parameters are unset (options absent, or present with the
fields absent), and uses the caller-supplied values whenever they are
set and satisfy the declared minimums. -/
theorem C8_trade_body_tuning_defaults (w m : String) (md : MetadataResponse)
    (o : TokenOptions) (a s p : ℚ)
    (ha : o.initialLiquiditySOL = some a) (hamin : (1 : ℚ)/10000 ≤ a)
    (hs : o.slippageBps = some s) (hsmin : (1 : ℚ) ≤ s)
    (hp : o.priorityFee = some p) (hpmin : (1 : ℚ)/100000 ≤ p) :
    ((mkTradeBody w m md none).amount = 1/10000 ∧
     (mkTradeBody w m md none).slippage = 5 ∧
     (mkTradeBody w m md none).priorityFee = 5/100000) ∧
    ((mkTradeBody w m md (some emptyOptions)).amount = 1/10000 ∧
     (mkTradeBody w m md (some emptyOptions)).slippage = 5 ∧
     (mkTradeBody w m md (some emptyOptions)).priorityFee = 5/100000) ∧
    ((mkTradeBody w m md (some o)).amount = a ∧
     (mkTradeBody w m md (some o)).slippage = s ∧
     (mkTradeBody w m md (some o)).priorityFee = p) := by
  have ha0 : a ≠ 0 := by
    intro h0
    rw [h0] at hamin
    norm_num at hamin
  have hs0 : s ≠ 0 := by
    intro h0
    rw [h0] at hsmin
    norm_num at hsmin
  have hp0 : p ≠ 0 := by
    intro h0
    rw [h0] at hpmin
    norm_num at hpmin
  refine ⟨⟨rfl, rfl, rfl⟩, ⟨rfl, rfl, rfl⟩, ?_, ?_, ?_⟩ <;>
    simp [mkTradeBody, jsOr, emptyOptions, ha, hs, hp, ha0, hs0, hp0]

/-- Witness for C8 at a fully populated tuning block. -/
theorem C8_trade_body_tuning_defaults_witness :
    ((mkTradeBody "w" "m" sampleMetadata none).amount = 1/10000 ∧
     (mkTradeBody "w" "m" sampleMetadata none).slippage = 5 ∧
     (mkTradeBody "w" "m" sampleMetadata none).priorityFee = 5/100000) ∧
    ((mkTradeBody "w" "m" sampleMetadata (some emptyOptions)).amount = 1/10000 ∧
     (mkTradeBody "w" "m" sampleMetadata (some emptyOptions)).slippage = 5 ∧
     (mkTradeBody "w" "m" sampleMetadata (some emptyOptions)).priorityFee = 5/100000) ∧
    ((mkTradeBody "w" "m" sampleMetadata (some tunedOptions)).amount = 1/100 ∧
     (mkTradeBody "w" "m" sampleMetadata (some tunedOptions)).slippage = 10 ∧
     (mkTradeBody "w" "m" sampleMetadata (some tunedOptions)).priorityFee = 1/1000) :=
  C8_trade_body_tuning_defaults "w" "m" sampleMetadata tunedOptions
    (1/100) 10 (1/1000) rfl (by norm_num) rfl (by norm_num) rfl (by norm_num)

/-- C9: on the happy path — metadata upload returns a URI, transaction
construction succeeds, confirmation reports no error — the response is
success=true with the submission signature, the base58 public key of the
request's mint keypair, and exactly the URI the metadata upload
returned. -/
theorem C9_happy_path_response (req : TokenLaunchRequest) (env : Env)
    (s1 : Nat) (st1 : String) (b1 : Unit)
    (s2 : Nat) (st2 : String) (md : MetadataResponse)
    (s3 : Nat) (st3 b3 : String) (bh : String) (lh : Nat) (sig : String)
    (hv : validateRequest req = true)
    (h1 : env.imageFetch = .response s1 st1 b1)
    (h2 : env.ipfsFetch = .response s2 st2 md) (hok2 : httpOk s2 = true)
    (h3 : env.tradeFetch = .response s3 st3 b3) (hok3 : httpOk s3 = true)
    (h4 : env.deserializeResult = .ok ())
    (h5 : env.blockhashResult = .ok (bh, lh))
    (h6 : env.sendResult = .ok sig)
    (h7 : env.confirmResult = .ok none) :
    (postLaunchToken req env).1 =
      some { success := true
             data := some { signature := sig, mintAddress := env.mintPubkey,
                            metadataUri := md.metadataUri }
             error := none } := by
  have hrun := run_happy req env s1 st1 b1 s2 st2 md s3 st3 b3 bh lh sig
    h1 h2 hok2 h3 hok3 h4 h5 h6 h7
  simp [postLaunchToken, hv, hrun]

/-- Witness for C9 at the valid request and all-success environment. -/
theorem C9_happy_path_response_witness :
    (postLaunchToken validReq happyEnv).1 =
      some { success := true
             data := some { signature := "sig7777",
                            mintAddress := happyEnv.mintPubkey,
                            metadataUri := sampleMetadata.metadataUri }
             error := none } :=
  C9_happy_path_response validReq happyEnv 200 "OK" () 200 "OK" sampleMetadata
    200 "OK" "serialized-tx-bytes" "blockhash9999" 12345 "sig7777"
    (by decide) rfl rfl rfl rfl rfl rfl rfl rfl rfl

/-- C10: when the value thrown during request handling is not an `Error`
instance the failure response's error field is the literal string
"Unknown error occurred"; when it is an `Error`, the field is that
error's message. -/
theorem C10_thrown_message_mapping (req : TokenLaunchRequest)
    (env1 env2 : Env) (m : String) (logs : Option (List String))
    (ha : env1.imageFetch = .reject .nonError)
    (hb : env2.imageFetch = .reject (.error m logs)) :
    (handleLaunchToken req env1).1.error = some "Unknown error occurred" ∧
    (handleLaunchToken req env2).1.error = some m := by
  rw [run_image_reject req env1 _ ha, run_image_reject req env2 _ hb]
  exact ⟨rfl, rfl⟩

/-- Witness for C10 at the two rejecting image-fetch environments. -/
theorem C10_thrown_message_mapping_witness :
    (handleLaunchToken validReq imageNonErrorEnv).1.error =
      some "Unknown error occurred" ∧
    (handleLaunchToken validReq imageRejectEnv).1.error = some "fetch failed" :=
  C10_thrown_message_mapping validReq imageNonErrorEnv imageRejectEnv
    "fetch failed" none rfl rfl
